import Mathlib

/-!
Shallow embedding of `src/main/python/tensorframes/core.py`, the Python glue
layer of the tensorframes repository.  Pure helpers become Lean functions;
the module-level mutable globals of `_java_api` become explicit state
passing; Python exceptions become `Except` values; the Py4J/JVM boundary is
modelled by an oracle structure (`RemoteEngine`) together with an explicit
trace of cross-boundary events (`RemoteEvent`), so that "raised before any
remote call" claims are statements about the emitted trace.
-/

namespace TensorFrames

/-- An opaque JVM-side dataframe handle (`jdf`), identified by an id. -/
structure JDF where
  id : Nat
deriving DecidableEq, Repr

/-- The Python-side Spark context, an external object discovered from the
ambient process (`SparkContext._active_spark_context`). -/
structure SparkContext where
  id : Nat
deriving DecidableEq, Repr

/-- The Python-side SQL context; `core.py` constructs it as `SQLContext(_sc)`. -/
structure SQLContext where
  sc : SparkContext
deriving DecidableEq, Repr

/-- A Python `DataFrame` wrapper: it exposes its underlying JVM handle via
`dframe._jdf`. -/
structure DataFrame where
  jdf : JDF
deriving DecidableEq, Repr

/-- The object returned by `_java_api()`: an instance of the remote
entry-point class, produced by `loadClass(javaClassName).newInstance()`.
Each `newInstance()` call creates a distinct object; `instanceId` records
which construction produced this handle. -/
structure JavaApiHandle where
  instanceId : Nat
deriving DecidableEq, Repr

/-- The module-level mutable globals of `core.py` (`_sc` and `_sql`), plus a
counter of how many times `newInstance()` has been executed, used to give
each constructed handle a distinct identity. -/
structure PyState where
  sc : Option SparkContext
  sql : Option SQLContext
  newInstanceCount : Nat
deriving DecidableEq, Repr

/-- `_java_api` from `core.py`: if the global `_sc` is `None` it is set to the
active Spark context and `_sql` to `SQLContext(_sc)`; then, on every call, a
fresh instance of the entry-point class is created via
`loadClass(javaClassName).newInstance()` and returned.  Nothing caches the
returned instance. -/
def _java_api (active : SparkContext) (st : PyState) : PyState × JavaApiHandle :=
  let st1 := if st.sc = none then
    { st with sc := some active, sql := some { sc := active } }
  else st
  ({ st1 with newInstanceCount := st1.newInstanceCount + 1 },
   { instanceId := st1.newInstanceCount })

/-- A value held in a result row (the numpy payloads are opaque to the glue
layer, so an integer id suffices). -/
abbrev Value := Int

/-- A TensorFlow tensor as seen by this layer: its name and its static shape
`get_shape().as_list()`, where an unknown dimension is `None`. -/
structure Tensor where
  name : String
  dims : List (Option Int)
deriving DecidableEq, Repr

/-- A node of the serialized graph (`graph.as_graph_def().node`): its name and
its list of input names. -/
structure NodeDef where
  name : String
  input : List String
deriving DecidableEq, Repr

/-- The protobuf `GraphDef`: the node list, plus the opaque byte sequence that
`SerializeToString()` produces for it (protobuf encoding is external). -/
structure GraphDef where
  node : List NodeDef
  serializedBytes : List Nat
deriving DecidableEq, Repr

/-- A TensorFlow graph as seen by this layer: its `GraphDef` and the tensors
it can resolve by name. -/
structure Graph where
  graphDef : GraphDef
  tensors : List Tensor
deriving DecidableEq, Repr

/-- `graph.as_graph_def()`. -/
def Graph.as_graph_def (g : Graph) : GraphDef := g.graphDef

/-- `graph.get_tensor_by_name(s)`: the tensor of the graph whose name is `s`,
if any (the TF library raises `KeyError` when there is none). -/
def Graph.get_tensor_by_name (g : Graph) (s : String) : Option Tensor :=
  g.tensors.find? (fun t => t.name == s)

/-- A fetch argument as passed by the user: a string name, a `Tensor` object,
or a value of an unsupported type (carrying its `repr` string and type name,
which is all the error paths consume). -/
inductive Fetch where
  | byName (s : String)
  | tensor (t : Tensor)
  | invalid (reprStr : String) (typeName : String)
deriving DecidableEq, Repr

/-- The `fetches` argument of the public functions: either a single graph
element or a list/tuple of graph elements. -/
inductive Fetches where
  | single (f : Fetch)
  | list (fs : List Fetch)
deriving DecidableEq, Repr

/-- The Python exceptions this layer raises or propagates. -/
inductive PyError where
  | typeError (msg : String)
  | valueError (msg : String)
  | attributeError (msg : String)
  | keyError (msg : String)
deriving DecidableEq, Repr

/-- Outcome of the TF library call `graph.as_graph_element(fetch, ...)`:
either a resolved element name, or one of the three exception kinds that
`_validate_fetch` catches. -/
inductive ElemResult where
  | ok (name : String)
  | typeError (msg : String)
  | valueError (msg : String)
  | keyError (msg : String)
deriving DecidableEq, Repr

/-- Python `repr` of a string: the string between single quotes. -/
def quoteStr (s : String) : String :=
  String.singleton (Char.ofNat 39) ++ s ++ String.singleton (Char.ofNat 39)

/-- Python `repr` of a fetch value (`%r` in the error format strings). -/
def Fetch.reprOf : Fetch → String
  | .byName s => quoteStr s
  | .tensor t => "Tensor(" ++ quoteStr t.name ++ ")"
  | .invalid r _ => r

/-- The name of the Python type of a fetch value (`type(fetch)`). -/
def Fetch.typeNameOf : Fetch → String
  | .byName _ => "str"
  | .tensor _ => "Tensor"
  | .invalid _ ty => ty

/-- The TF library function `graph.as_graph_element(fetch, allow_tensor=True,
allow_operation=True)` (external dependency, modelled): a string resolves to
the tensor or operation of that name (`KeyError` when absent), a `Tensor`
object resolves to itself when it belongs to the graph (`ValueError`
otherwise), and any other type raises `TypeError`. -/
def Graph.as_graph_element (g : Graph) (f : Fetch) : ElemResult :=
  match f with
  | .invalid _ ty =>
      .typeError ("Can not convert a " ++ ty ++ " into a Tensor or Operation.")
  | .byName s =>
      match g.get_tensor_by_name s with
      | some t => .ok t.name
      | none =>
          match g.graphDef.node.find? (fun n => n.name == s) with
          | some n => .ok n.name
          | none =>
              .keyError ("The name " ++ quoteStr s ++
                " refers to an element which does not exist in the graph.")
  | .tensor t =>
      if g.tensors.contains t then .ok t.name
      else .valueError ("Tensor " ++ quoteStr t.name ++
        " is not an element of this graph.")

/-- The message of the `TypeError` re-raised by `_validate_fetch`
(`'Fetch argument %r has invalid type %r, must be a string or Tensor. (%s)'`). -/
def typeErrMsg (fetch : Fetch) (e : String) : String :=
  "Fetch argument " ++ Fetch.reprOf fetch ++ " has invalid type " ++
    Fetch.typeNameOf fetch ++ ", must be a string or Tensor. (" ++ e ++ ")"

/-- The message of the `ValueError` re-raised by `_validate_fetch`
(`'Fetch argument %r cannot be interpreted as a Tensor. (%s)'`). -/
def valueErrMsg (fetch : Fetch) (e : String) : String :=
  "Fetch argument " ++ Fetch.reprOf fetch ++
    " cannot be interpreted as a Tensor. (" ++ e ++ ")"

/-- `_validate_fetch(graph, fetch)` from `core.py`: resolve the fetch via
`as_graph_element` and return the element's name; a `TypeError` is re-raised
as a `TypeError` naming the value and its type, and both `ValueError` and
`KeyError` are re-raised as a `ValueError`. -/
def _validate_fetch (graph : Graph) (fetch : Fetch) : Except PyError String :=
  match graph.as_graph_element fetch with
  | .ok n => .ok n
  | .typeError e => .error (.typeError (typeErrMsg fetch e))
  | .valueError e => .error (.valueError (valueErrMsg fetch e))
  | .keyError e => .error (.valueError (valueErrMsg fetch e))

/-- `_check_fetches(fetches)` from `core.py`: a non-list fetch is wrapped into
a one-element list, a list/tuple is returned as-is. -/
def _check_fetches : Fetches → List Fetch
  | .single f => [f]
  | .list fs => fs

/-- Python `s.split(":")[0]`: the part of the name before the first colon
(the whole name when it has no colon), built directly over the character
list so that it computes by structural recursion. -/
def stripPort (s : String) : String := String.mk (s.data.takeWhile (fun c => c != ':'))

/-- Python `", ".join`-style rendering used by `str` on a list body. -/
def commaJoin : List String → String
  | [] => ""
  | [s] => s
  | s :: rest => s ++ ", " ++ commaJoin rest

/-- Python `str` of a list of strings, as interpolated by `%s` in the
duplicate-names error message. -/
def pyListStr (l : List String) : String :=
  "[" ++ commaJoin (l.map quoteStr) ++ "]"

/-- The message of the duplicate-column-names `ValueError` of `_get_graph`. -/
def dupMsg (fetch_names : List String) : String :=
  "Could not infer a list of unique names for the columns: " ++
    pyListStr fetch_names

/-- The list comprehension
`[_validate_fetch(graph, fetch) for fetch in fetches]` of `_get_graph`:
fetches are validated left to right and the first exception propagates. -/
def validateFetches (graph : Graph) : List Fetch → Except PyError (List String)
  | [] => .ok []
  | f :: rest =>
      match _validate_fetch graph f with
      | .error e => .error e
      | .ok n =>
          match validateFetches graph rest with
          | .error e => .error e
          | .ok ns => .ok (n :: ns)

/-- `_get_graph(fetches)` from `core.py`, with the ambient
`tf.get_default_graph()` passed explicitly: validate every fetch, strip the
output index from each resolved name, and fail with a `ValueError` when the
stripped names contain a duplicate (`len(set(col_names)) != len(col_names)`);
on success the graph itself is returned. -/
def _get_graph (graph : Graph) (fetches : List Fetch) : Except PyError Graph :=
  match validateFetches graph fetches with
  | .error e => .error e
  | .ok fetch_names =>
      let col_names := fetch_names.map stripPort
      if col_names.dedup.length ≠ col_names.length then
        .error (.valueError (dupMsg fetch_names))
      else
        .ok graph

/-- `_get_shape(node)` from `core.py`: `node.get_shape().as_list()` with every
`None` dimension replaced by `-1`. -/
def _get_shape (t : Tensor) : List Int :=
  t.dims.map (fun x => match x with | none => -1 | some v => v)

/-- Python attribute access `fetch.name` inside `_add_shapes`: only `Tensor`
objects carry the attribute; a string or other value raises
`AttributeError`. -/
def Fetch.nameAttr : Fetch → Except PyError String
  | .tensor t => .ok t.name
  | .byName s => .error (.attributeError ("str object has no attribute name: " ++ s))
  | .invalid r ty => .error (.attributeError (ty ++ " object has no attribute name: " ++ r))

/-- Python call `_get_shape(fetch)` inside `_add_shapes`: `fetch.get_shape()`
only exists on `Tensor` objects. -/
def Fetch.shapeAttr : Fetch → Except PyError (List Int)
  | .tensor t => .ok (_get_shape t)
  | .byName s => .error (.attributeError ("str object has no attribute get_shape: " ++ s))
  | .invalid r ty => .error (.attributeError (ty ++ " object has no attribute get_shape: " ++ r))

/-- One call made on the remote builder object. -/
inductive BuilderCall where
  | graphBytes (bytes : List Nat)
  | shape (names : List String) (shapes : List (List Int))
deriving DecidableEq, Repr

/-- The remote request builder returned by the entry point's
`reduce_rows`/`map_rows`/`map_blocks`/`reduce_blocks` methods: it remembers
which method created it, on which dataframe handle, and the calls made on it
so far, in order. -/
structure Builder where
  methodName : String
  jdf : JDF
  calls : List BuilderCall
deriving DecidableEq, Repr

/-- `_add_graph(graph, builder)` from `core.py`: serialize the graph
(`as_graph_def().SerializeToString()`) and pass the bytes to
`builder.graph(...)`. -/
def _add_graph (graph : Graph) (builder : Builder) : Builder :=
  { builder with calls :=
      builder.calls ++ [BuilderCall.graphBytes graph.as_graph_def.serializedBytes] }

/-- The placeholder-discovery loop of `_add_shapes`: for every node of
`graph.as_graph_def().node` whose input list is empty, look up its default
output tensor `"<node>:0"` (`KeyError` if the graph has no such tensor) and
record that tensor's name and `_get_shape`. -/
def phLoop (graph : Graph) : List NodeDef → Except PyError (List (String × List Int))
  | [] => .ok []
  | n :: rest =>
      if n.input = [] then
        match graph.get_tensor_by_name (n.name ++ ":0") with
        | none => .error (.keyError (quoteStr (n.name ++ ":0")))
        | some t =>
            match phLoop graph rest with
            | .error e => .error e
            | .ok tl => .ok ((t.name, _get_shape t) :: tl)
      else phLoop graph rest

/-- The list comprehension `[fetch.name for fetch in fetches]` of
`_add_shapes`. -/
def fetchNames : List Fetch → Except PyError (List String)
  | [] => .ok []
  | f :: rest =>
      match Fetch.nameAttr f with
      | .error e => .error e
      | .ok n =>
          match fetchNames rest with
          | .error e => .error e
          | .ok ns => .ok (n :: ns)

/-- The list comprehension `[_get_shape(fetch) for fetch in fetches]` of
`_add_shapes`. -/
def fetchShapes : List Fetch → Except PyError (List (List Int))
  | [] => .ok []
  | f :: rest =>
      match Fetch.shapeAttr f with
      | .error e => .error e
      | .ok s =>
          match fetchShapes rest with
          | .error e => .error e
          | .ok ss => .ok (s :: ss)

/-- `_add_shapes(graph, builder, fetches)` from `core.py`: collect the fetch
names and shapes, discover the placeholders, and call
`builder.shape(names + ph_names, shapes + ph_shapes)`. -/
def _add_shapes (graph : Graph) (builder : Builder) (fetches : List Fetch) :
    Except PyError Builder :=
  match fetchNames fetches with
  | .error e => .error e
  | .ok names =>
      match fetchShapes fetches with
      | .error e => .error e
      | .ok shapes =>
          match phLoop graph graph.as_graph_def.node with
          | .error e => .error e
          | .ok ph =>
              .ok { builder with calls := builder.calls ++
                [BuilderCall.shape (names ++ ph.map Prod.fst)
                  (shapes ++ ph.map Prod.snd)] }

/-- Result of a reduction call after `_unpack_row`: a bare value or a list. -/
inductive UnpackResult where
  | single (v : Value)
  | seq (vs : List Value)
deriving DecidableEq, Repr

/-- `_unpack_row(jdf)` from `core.py`, applied to the first row of the result
dataframe read as a list of values: a one-element row is returned bare,
anything else is returned as the list itself. -/
def _unpack_row (l : List Value) : UnpackResult :=
  match l with
  | [v] => .single v
  | _ => .seq l

/-- One cross-boundary (Py4J) call made by the glue layer, in order. -/
inductive RemoteEvent where
  | javaApi
  | methodCall (method : String) (df : JDF)
  | builderGraph (bytes : List Nat)
  | builderShape (names : List String) (shapes : List (List Int))
  | buildRow
  | buildDF
deriving DecidableEq, Repr

/-- The remote event corresponding to a call recorded on the builder. -/
def BuilderCall.toEvent : BuilderCall → RemoteEvent
  | .graphBytes b => .builderGraph b
  | .shape n s => .builderShape n s

/-- The oracle for the JVM side: what each terminal remote call returns for a
given submitted request.  `buildRowResult` is the first row of the dataframe
returned by `buildRow`, read as a list of values in column order. -/
structure RemoteEngine where
  buildRowResult : Builder → List Value
  buildDFResult : Builder → JDF
  analyzeResult : JDF → JDF
  explainResult : JDF → String

/-- The trace prefix common to the four graph-shipping operations: the
`_java_api()` acquisition, the remote builder-method call on the dataframe
handle, then the builder calls in order. -/
def traceOf (method : String) (d : DataFrame) (b : Builder) : List RemoteEvent :=
  RemoteEvent.javaApi :: RemoteEvent.methodCall method d.jdf ::
    b.calls.map BuilderCall.toEvent

/-- `reduce_rows(fetches, dframe)` from `core.py`: normalize and validate the
fetches, then acquire the api, create the builder on `dframe._jdf`, attach
graph and shapes, trigger `buildRow`, and unpack the single result row.  The
second component is the trace of cross-boundary calls made. -/
def reduce_rows (eng : RemoteEngine) (graph : Graph) (fetches : Fetches)
    (dframe : DataFrame) : Except PyError UnpackResult × List RemoteEvent :=
  let fs := _check_fetches fetches
  match _get_graph graph fs with
  | .error e => (.error e, [])
  | .ok g =>
      let b1 := _add_graph g { methodName := "reduce_rows", jdf := dframe.jdf, calls := [] }
      match _add_shapes g b1 fs with
      | .error e => (.error e, traceOf "reduce_rows" dframe b1)
      | .ok b2 =>
          (.ok (_unpack_row (eng.buildRowResult b2)),
           traceOf "reduce_rows" dframe b2 ++ [RemoteEvent.buildRow])

/-- `map_rows(fetches, dframe)` from `core.py`: like `reduce_rows` but the
builder method is `map_rows`, execution is triggered with `buildDF`, and the
returned handle is wrapped into a `DataFrame`. -/
def map_rows (eng : RemoteEngine) (graph : Graph) (fetches : Fetches)
    (dframe : DataFrame) : Except PyError DataFrame × List RemoteEvent :=
  let fs := _check_fetches fetches
  match _get_graph graph fs with
  | .error e => (.error e, [])
  | .ok g =>
      let b1 := _add_graph g { methodName := "map_rows", jdf := dframe.jdf, calls := [] }
      match _add_shapes g b1 fs with
      | .error e => (.error e, traceOf "map_rows" dframe b1)
      | .ok b2 =>
          (.ok { jdf := eng.buildDFResult b2 },
           traceOf "map_rows" dframe b2 ++ [RemoteEvent.buildDF])

/-- `map_blocks(fetches, dframe)` from `core.py`: identical to `map_rows`
except for the remote builder method. -/
def map_blocks (eng : RemoteEngine) (graph : Graph) (fetches : Fetches)
    (dframe : DataFrame) : Except PyError DataFrame × List RemoteEvent :=
  let fs := _check_fetches fetches
  match _get_graph graph fs with
  | .error e => (.error e, [])
  | .ok g =>
      let b1 := _add_graph g { methodName := "map_blocks", jdf := dframe.jdf, calls := [] }
      match _add_shapes g b1 fs with
      | .error e => (.error e, traceOf "map_blocks" dframe b1)
      | .ok b2 =>
          (.ok { jdf := eng.buildDFResult b2 },
           traceOf "map_blocks" dframe b2 ++ [RemoteEvent.buildDF])

/-- `reduce_blocks(fetches, dframe)` from `core.py`: identical to
`reduce_rows` except for the remote builder method. -/
def reduce_blocks (eng : RemoteEngine) (graph : Graph) (fetches : Fetches)
    (dframe : DataFrame) : Except PyError UnpackResult × List RemoteEvent :=
  let fs := _check_fetches fetches
  match _get_graph graph fs with
  | .error e => (.error e, [])
  | .ok g =>
      let b1 := _add_graph g { methodName := "reduce_blocks", jdf := dframe.jdf, calls := [] }
      match _add_shapes g b1 fs with
      | .error e => (.error e, traceOf "reduce_blocks" dframe b1)
      | .ok b2 =>
          (.ok (_unpack_row (eng.buildRowResult b2)),
           traceOf "reduce_blocks" dframe b2 ++ [RemoteEvent.buildRow])

/-- `analyze(dframe)` from `core.py`: `DataFrame(_java_api().analyze(dframe._jdf), _sql)`
— a direct remote call, no graph attached. -/
def analyze (eng : RemoteEngine) (dframe : DataFrame) : DataFrame × List RemoteEvent :=
  ({ jdf := eng.analyzeResult dframe.jdf },
   [RemoteEvent.javaApi, RemoteEvent.methodCall "analyze" dframe.jdf])

/-- `print_schema(dframe)` from `core.py`: prints
`_java_api().explain(dframe._jdf)`; the printed string is returned here. -/
def print_schema (eng : RemoteEngine) (dframe : DataFrame) : String × List RemoteEvent :=
  (eng.explainResult dframe.jdf,
   [RemoteEvent.javaApi, RemoteEvent.methodCall "explain" dframe.jdf])

/-- The entry the placeholder loop records for an empty-input node (junk when
the tensor lookup fails; only used when it succeeds). -/
def phEntry (graph : Graph) (n : NodeDef) : String × List Int :=
  match graph.get_tensor_by_name (n.name ++ ":0") with
  | some t => (t.name, _get_shape t)
  | none => ("", [])

/-- Fixture: tensor `"z:0"` of static shape `(3, None)`. -/
def tZ0 : Tensor := { name := "z:0", dims := [some 3, none] }

/-- Fixture: tensor `"z:1"` of static shape `(3, None)`. -/
def tZ1 : Tensor := { name := "z:1", dims := [some 3, none] }

/-- Fixture: a graph with an input node `z` (no inputs, default output `z:0`)
and a dependent node `w`. -/
def g0 : Graph :=
  { graphDef :=
      { node := [{ name := "z", input := [] }, { name := "w", input := ["z"] }],
        serializedBytes := [1, 2, 3] },
    tensors := [tZ0, tZ1] }

/-- Fixture: a dataframe whose JVM handle has id 7. -/
def d0 : DataFrame := { jdf := { id := 7 } }

/-- Fixture: a remote engine whose reductions produce the one-column row
`[5]`. -/
def eng0 : RemoteEngine :=
  { buildRowResult := fun _ => [5]
    buildDFResult := fun _ => { id := 8 }
    analyzeResult := fun j => j
    explainResult := fun _ => "schema" }

/-- Fixture: a remote engine whose reductions produce the two-column row
`[5, 6]`. -/
def engPair : RemoteEngine :=
  { buildRowResult := fun _ => [5, 6]
    buildDFResult := fun _ => { id := 8 }
    analyzeResult := fun j => j
    explainResult := fun _ => "schema" }

/-- Fixture: a remote engine whose reductions produce a zero-column row. -/
def engEmpty : RemoteEngine :=
  { buildRowResult := fun _ => []
    buildDFResult := fun _ => { id := 8 }
    analyzeResult := fun j => j
    explainResult := fun _ => "schema" }

/-- Fixture: a single tensor fetch on `z:0`. -/
def fetches0 : Fetches := Fetches.list [Fetch.tensor tZ0]

/-- Fixture: two fetches resolving to `"z:0"` and `"z:1"`, whose base names
collide after the port index is stripped. -/
def dupFetches0 : Fetches := Fetches.list [Fetch.byName "z:0", Fetch.byName "z:1"]

/-- Fixture: a fetch of an unsupported type (a plain integer). -/
def fetchBad : Fetch := Fetch.invalid "23" "int"

/-- Fixture: a fetch name that resolves to nothing in `g0`. -/
def fetchMissing : Fetch := Fetch.byName "nope"

/-- Fixture: the trace of remote events of a successful `reduce_rows` call on
`g0`, `fetches0`, `d0`. -/
def trRR0 : List RemoteEvent :=
  [RemoteEvent.javaApi, RemoteEvent.methodCall "reduce_rows" { id := 7 },
   RemoteEvent.builderGraph [1, 2, 3],
   RemoteEvent.builderShape ["z:0", "z:0"] [[3, -1], [3, -1]],
   RemoteEvent.buildRow]

/-- Fixture: an active Spark context. -/
def sc0 : SparkContext := { id := 1 }

/-- Fixture: the module state before any public call (`_sc = _sql = None`). -/
def pyState0 : PyState := { sc := none, sql := none, newInstanceCount := 0 }

theorem dedup_length_eq {l : List String} : l.dedup.length = l.length ↔ l.Nodup := by
  constructor
  · intro h
    rw [← List.dedup_eq_self]
    exact (List.dedup_sublist l).eq_of_length h
  · intro h
    rw [List.dedup_eq_self.mpr h]

theorem unpack_row_cases (row : List Value) :
    (∀ v, row = [v] → _unpack_row row = UnpackResult.single v) ∧
    (2 ≤ row.length → _unpack_row row = UnpackResult.seq row) := by
  constructor
  · rintro v rfl
    rfl
  · intro h
    rcases row with _ | ⟨a, _ | ⟨b, t⟩⟩
    · simp at h
    · simp at h
    · rfl

theorem zip_map_self {α β : Type} (f : α → β) (l : List α) (p : α × β)
    (hp : p ∈ l.zip (l.map f)) : p.2 = f p.1 := by
  induction l with
  | nil => cases hp
  | cons a t ih =>
    simp only [List.map_cons, List.zip_cons_cons, List.mem_cons] at hp
    rcases hp with hp | hp
    · subst hp
      rfl
    · exact ih hp

theorem get_graph_ok (graph : Graph) (fetches : List Fetch) (g : Graph)
    (h : _get_graph graph fetches = Except.ok g) : g = graph := by
  unfold _get_graph at h
  simp only [] at h
  split at h
  · exact (Except.noConfusion h)
  · split at h
    · exact (Except.noConfusion h)
    · exact (Except.ok.inj h).symm

theorem get_graph_error_no_remote (eng : RemoteEngine) (graph : Graph)
    (fetches : Fetches) (dframe : DataFrame) (e : PyError)
    (h : _get_graph graph (_check_fetches fetches) = Except.error e) :
    reduce_rows eng graph fetches dframe = (Except.error e, []) ∧
    map_rows eng graph fetches dframe = (Except.error e, []) ∧
    map_blocks eng graph fetches dframe = (Except.error e, []) ∧
    reduce_blocks eng graph fetches dframe = (Except.error e, []) := by
  refine ⟨?_, ?_, ?_, ?_⟩ <;>
    simp only [reduce_rows, map_rows, map_blocks, reduce_blocks, h]

theorem add_shapes_ok (graph : Graph) (b : Builder) (fetches : List Fetch)
    (b2 : Builder) (h : _add_shapes graph b fetches = Except.ok b2) :
    ∃ ns ss, b2 = { b with calls := b.calls ++ [BuilderCall.shape ns ss] } := by
  unfold _add_shapes at h
  split at h
  · exact (Except.noConfusion h)
  · split at h
    · exact (Except.noConfusion h)
    · split at h
      · exact (Except.noConfusion h)
      · exact ⟨_, _, (Except.ok.inj h).symm⟩

theorem reduce_rows_ok_shape (eng : RemoteEngine) (graph : Graph) (fetches : Fetches)
    (dframe : DataFrame) (res : UnpackResult) (tr : List RemoteEvent)
    (h : reduce_rows eng graph fetches dframe = (Except.ok res, tr)) :
    ∃ b2, _add_shapes graph (_add_graph graph
        { methodName := "reduce_rows", jdf := dframe.jdf, calls := [] })
        (_check_fetches fetches) = Except.ok b2 ∧
      res = _unpack_row (eng.buildRowResult b2) ∧
      tr = traceOf "reduce_rows" dframe b2 ++ [RemoteEvent.buildRow] := by
  unfold reduce_rows at h
  simp only [] at h
  split at h
  · exact absurd (congrArg Prod.fst h) (by simp)
  · next g hg =>
      have hgg := get_graph_ok graph _ g hg
      subst hgg
      split at h
      · exact absurd (congrArg Prod.fst h) (by simp)
      · next b2 hb2 =>
          refine ⟨b2, hb2, ?_, ?_⟩
          · have h1 := congrArg Prod.fst h
            simp only [Prod.fst] at h1
            exact (Except.ok.inj h1).symm
          · exact (congrArg Prod.snd h).symm

theorem reduce_blocks_ok_shape (eng : RemoteEngine) (graph : Graph) (fetches : Fetches)
    (dframe : DataFrame) (res : UnpackResult) (tr : List RemoteEvent)
    (h : reduce_blocks eng graph fetches dframe = (Except.ok res, tr)) :
    ∃ b2, _add_shapes graph (_add_graph graph
        { methodName := "reduce_blocks", jdf := dframe.jdf, calls := [] })
        (_check_fetches fetches) = Except.ok b2 ∧
      res = _unpack_row (eng.buildRowResult b2) ∧
      tr = traceOf "reduce_blocks" dframe b2 ++ [RemoteEvent.buildRow] := by
  unfold reduce_blocks at h
  simp only [] at h
  split at h
  · exact absurd (congrArg Prod.fst h) (by simp)
  · next g hg =>
      have hgg := get_graph_ok graph _ g hg
      subst hgg
      split at h
      · exact absurd (congrArg Prod.fst h) (by simp)
      · next b2 hb2 =>
          refine ⟨b2, hb2, ?_, ?_⟩
          · have h1 := congrArg Prod.fst h
            simp only [Prod.fst] at h1
            exact (Except.ok.inj h1).symm
          · exact (congrArg Prod.snd h).symm

theorem map_rows_ok_shape (eng : RemoteEngine) (graph : Graph) (fetches : Fetches)
    (dframe : DataFrame) (df : DataFrame) (tr : List RemoteEvent)
    (h : map_rows eng graph fetches dframe = (Except.ok df, tr)) :
    ∃ b2, _add_shapes graph (_add_graph graph
        { methodName := "map_rows", jdf := dframe.jdf, calls := [] })
        (_check_fetches fetches) = Except.ok b2 ∧
      df = { jdf := eng.buildDFResult b2 } ∧
      tr = traceOf "map_rows" dframe b2 ++ [RemoteEvent.buildDF] := by
  unfold map_rows at h
  simp only [] at h
  split at h
  · exact absurd (congrArg Prod.fst h) (by simp)
  · next g hg =>
      have hgg := get_graph_ok graph _ g hg
      subst hgg
      split at h
      · exact absurd (congrArg Prod.fst h) (by simp)
      · next b2 hb2 =>
          refine ⟨b2, hb2, ?_, ?_⟩
          · have h1 := congrArg Prod.fst h
            simp only [Prod.fst] at h1
            exact (Except.ok.inj h1).symm
          · exact (congrArg Prod.snd h).symm

theorem map_blocks_ok_shape (eng : RemoteEngine) (graph : Graph) (fetches : Fetches)
    (dframe : DataFrame) (df : DataFrame) (tr : List RemoteEvent)
    (h : map_blocks eng graph fetches dframe = (Except.ok df, tr)) :
    ∃ b2, _add_shapes graph (_add_graph graph
        { methodName := "map_blocks", jdf := dframe.jdf, calls := [] })
        (_check_fetches fetches) = Except.ok b2 ∧
      df = { jdf := eng.buildDFResult b2 } ∧
      tr = traceOf "map_blocks" dframe b2 ++ [RemoteEvent.buildDF] := by
  unfold map_blocks at h
  simp only [] at h
  split at h
  · exact absurd (congrArg Prod.fst h) (by simp)
  · next g hg =>
      have hgg := get_graph_ok graph _ g hg
      subst hgg
      split at h
      · exact absurd (congrArg Prod.fst h) (by simp)
      · next b2 hb2 =>
          refine ⟨b2, hb2, ?_, ?_⟩
          · have h1 := congrArg Prod.fst h
            simp only [Prod.fst] at h1
            exact (Except.ok.inj h1).symm
          · exact (congrArg Prod.snd h).symm

theorem reduce_rows_error_shape (eng : RemoteEngine) (graph : Graph) (fetches : Fetches)
    (dframe : DataFrame) (e : PyError) (tr : List RemoteEvent)
    (h : reduce_rows eng graph fetches dframe = (Except.error e, tr)) :
    _get_graph graph (_check_fetches fetches) = Except.error e ∨
    ∃ b, _add_shapes graph b (_check_fetches fetches) = Except.error e := by
  unfold reduce_rows at h
  simp only [] at h
  split at h
  · next e2 he =>
      have h1 := congrArg Prod.fst h
      simp only [Prod.fst] at h1
      left
      rw [← Except.error.inj h1]
      exact he
  · next g hg =>
      have hgg := get_graph_ok graph _ g hg
      subst hgg
      split at h
      · next e2 hb =>
          have h1 := congrArg Prod.fst h
          simp only [Prod.fst] at h1
          right
          exact ⟨_, (Except.error.inj h1) ▸ hb⟩
      · exact absurd (congrArg Prod.fst h) (by simp)

theorem reduce_blocks_error_shape (eng : RemoteEngine) (graph : Graph) (fetches : Fetches)
    (dframe : DataFrame) (e : PyError) (tr : List RemoteEvent)
    (h : reduce_blocks eng graph fetches dframe = (Except.error e, tr)) :
    _get_graph graph (_check_fetches fetches) = Except.error e ∨
    ∃ b, _add_shapes graph b (_check_fetches fetches) = Except.error e := by
  unfold reduce_blocks at h
  simp only [] at h
  split at h
  · next e2 he =>
      have h1 := congrArg Prod.fst h
      simp only [Prod.fst] at h1
      left
      rw [← Except.error.inj h1]
      exact he
  · next g hg =>
      have hgg := get_graph_ok graph _ g hg
      subst hgg
      split at h
      · next e2 hb =>
          have h1 := congrArg Prod.fst h
          simp only [Prod.fst] at h1
          right
          exact ⟨_, (Except.error.inj h1) ▸ hb⟩
      · exact absurd (congrArg Prod.fst h) (by simp)

/-- Claim C7: `_check_fetches` wraps a single (non-sequence) fetch into the
one-element sequence and returns a sequence unchanged. -/
theorem check_fetches_spec :
    (∀ f : Fetch, _check_fetches (Fetches.single f) = [f]) ∧
    (∀ l : List Fetch, _check_fetches (Fetches.list l) = l) :=
  ⟨fun _ => rfl, fun _ => rfl⟩

/-- Claim C5: `_get_shape` returns the ordered list of the tensor's
dimensions with every unknown dimension replaced by `-1`; in particular a
static shape `(3, None)` extracts to `[3, -1]` and `(2, 4)` to `[2, 4]`. -/
theorem get_shape_spec :
    (∀ t : Tensor, (_get_shape t).length = t.dims.length ∧
      ∀ p ∈ t.dims.zip (_get_shape t),
        (p.1 = none → p.2 = -1) ∧ ∀ v, p.1 = some v → p.2 = v) ∧
    _get_shape { name := "a", dims := [some 3, none] } = [3, -1] ∧
    _get_shape { name := "b", dims := [some 2, some 4] } = [2, 4] := by
  refine ⟨fun t => ⟨by simp [_get_shape], ?_⟩, by decide, by decide⟩
  intro p hp
  have h2 := zip_map_self _ t.dims p hp
  constructor
  · intro h1
    rw [h2, h1]
  · intro v h1
    rw [h2, h1]

/-- Claim C5 witness: the dimension pair `(some 3, 3)` of the concrete tensor
of shape `(3, None)` is mapped to itself, and the unknown pair to `-1`. -/
theorem get_shape_spec_witness :
    ((some 3, (3 : Int)) ∈
      ([some 3, none] : List (Option Int)).zip
        (_get_shape { name := "a", dims := [some 3, none] })) ∧
    (3 : Int) = 3 ∧ (-1 : Int) = -1 := by
  refine ⟨by decide, ?_, ?_⟩
  · exact ((get_shape_spec.1 { name := "a", dims := [some 3, none] }).2
      (some 3, (3 : Int)) (by decide)).2 3 rfl
  · exact ((get_shape_spec.1 { name := "a", dims := [some 3, none] }).2
      (none, (-1 : Int)) (by decide)).1 rfl

/-- Claim C2: a reduction (`reduce_rows` or `reduce_blocks`) whose remote
result row holds exactly one value returns that value bare, and with two or
more values it returns the whole row in column order. -/
theorem reduce_unpack_spec (eng : RemoteEngine) (graph : Graph) (fetches : Fetches)
    (dframe : DataFrame) (row : List Value) (res : UnpackResult) (tr : List RemoteEvent)
    (hrow : ∀ b, eng.buildRowResult b = row)
    (h : reduce_rows eng graph fetches dframe = (Except.ok res, tr) ∨
         reduce_blocks eng graph fetches dframe = (Except.ok res, tr)) :
    (∀ v, row = [v] → res = UnpackResult.single v) ∧
    (2 ≤ row.length → res = UnpackResult.seq row) := by
  have hres : res = _unpack_row row := by
    rcases h with h | h
    · obtain ⟨b2, _, hr, _⟩ := reduce_rows_ok_shape eng graph fetches dframe res tr h
      rw [hr, hrow b2]
    · obtain ⟨b2, _, hr, _⟩ := reduce_blocks_ok_shape eng graph fetches dframe res tr h
      rw [hr, hrow b2]
  subst hres
  exact unpack_row_cases row

/-- Claim C2 witness: with a two-column remote row `[5, 6]` the concrete
`reduce_rows` call returns the full sequence, and with the one-column row
`[5]` it returns the bare value. -/
theorem reduce_unpack_spec_witness :
    reduce_rows engPair g0 fetches0 d0 = (Except.ok (UnpackResult.seq [5, 6]), trRR0) ∧
    UnpackResult.seq [5, 6] = UnpackResult.seq [5, 6] ∧
    UnpackResult.single 5 = UnpackResult.single 5 := by
  refine ⟨rfl, ?_, ?_⟩
  · exact (reduce_unpack_spec engPair g0 fetches0 d0 [5, 6]
      (UnpackResult.seq [5, 6]) trRR0 (fun _ => rfl) (Or.inl rfl)).2 (by decide)
  · exact (reduce_unpack_spec eng0 g0 fetches0 d0 [5]
      (UnpackResult.single 5) trRR0 (fun _ => rfl) (Or.inl rfl)).1 5 rfl

/-- Claim C10: a reduction whose remote result row holds zero values returns
the empty sequence — not a bare value, and any error of such a call comes
from validation or shape attachment, never from the unpacking step. -/
theorem reduce_empty_row_spec (eng : RemoteEngine) (graph : Graph) (fetches : Fetches)
    (dframe : DataFrame) (hrow : ∀ b, eng.buildRowResult b = []) :
    (∀ res tr,
      (reduce_rows eng graph fetches dframe = (Except.ok res, tr) ∨
       reduce_blocks eng graph fetches dframe = (Except.ok res, tr)) →
      res = UnpackResult.seq []) ∧
    (∀ e tr,
      (reduce_rows eng graph fetches dframe = (Except.error e, tr) ∨
       reduce_blocks eng graph fetches dframe = (Except.error e, tr)) →
      _get_graph graph (_check_fetches fetches) = Except.error e ∨
      ∃ b, _add_shapes graph b (_check_fetches fetches) = Except.error e) := by
  constructor
  · intro res tr h
    rcases h with h | h
    · obtain ⟨b2, _, hr, _⟩ := reduce_rows_ok_shape eng graph fetches dframe res tr h
      rw [hr, hrow b2]
      rfl
    · obtain ⟨b2, _, hr, _⟩ := reduce_blocks_ok_shape eng graph fetches dframe res tr h
      rw [hr, hrow b2]
      rfl
  · intro e tr h
    rcases h with h | h
    · exact reduce_rows_error_shape eng graph fetches dframe e tr h
    · exact reduce_blocks_error_shape eng graph fetches dframe e tr h

/-- Claim C10 witness: the concrete zero-column reduction returns the empty
sequence. -/
theorem reduce_empty_row_spec_witness :
    reduce_rows engEmpty g0 fetches0 d0 = (Except.ok (UnpackResult.seq []), trRR0) ∧
    UnpackResult.seq [] = UnpackResult.seq ([] : List Value) := by
  refine ⟨rfl, ?_⟩
  exact (reduce_empty_row_spec engEmpty g0 fetches0 d0 (fun _ => rfl)).1
    (UnpackResult.seq []) trRR0 (Or.inl rfl)

theorem mem_commaJoin_substr : ∀ (L : List String) (s : String), s ∈ L →
    s.data <:+: (commaJoin L).data := by
  intro L
  induction L with
  | nil =>
      intro s h
      cases h
  | cons x t ih =>
      intro s hs
      rcases List.mem_cons.mp hs with rfl | hs
      · cases t with
        | nil => exact ⟨[], [], by simp [commaJoin]⟩
        | cons y u =>
            refine ⟨[], (", " ++ commaJoin (y :: u)).data, ?_⟩
            simp [commaJoin, String.data_append]
      · cases t with
        | nil => cases hs
        | cons y u =>
            have hsub : (commaJoin (y :: u)).data <:+: (commaJoin (x :: y :: u)).data :=
              ⟨(x ++ ", ").data, [], by simp [commaJoin, String.data_append]⟩
            exact (ih s hs).trans hsub

theorem self_substr_quote (s : String) : s.data <:+: (quoteStr s).data :=
  ⟨(String.singleton (Char.ofNat 39)).data, (String.singleton (Char.ofNat 39)).data,
    by simp [quoteStr, String.data_append]⟩

theorem mem_pyListStr_substr (l : List String) (n : String) (h : n ∈ l) :
    n.data <:+: (pyListStr l).data := by
  have h1 : (quoteStr n).data <:+: (commaJoin (l.map quoteStr)).data :=
    mem_commaJoin_substr _ _ (List.mem_map_of_mem quoteStr h)
  have h2 : (commaJoin (l.map quoteStr)).data <:+: (pyListStr l).data :=
    ⟨("[" : String).data, ("]" : String).data, by simp [pyListStr, String.data_append]⟩
  exact ((self_substr_quote n).trans h1).trans h2

theorem mem_dupMsg_substr (names : List String) (n : String) (h : n ∈ names) :
    n.data <:+: (dupMsg names).data := by
  have h2 : (pyListStr names).data <:+: (dupMsg names).data :=
    ⟨("Could not infer a list of unique names for the columns: " : String).data, [],
      by simp [dupMsg, String.data_append]⟩
  exact (mem_pyListStr_substr names n h).trans h2

/-- Claim C1: when two or more fetches resolve to names that are equal after
stripping the trailing port-index suffix, each of the four graph-shipping
calls raises the duplicate-names `ValueError` — whose message contains every
resolved fetch name, the colliding ones included — with an empty remote
trace, i.e. before any cross-boundary call. -/
theorem dup_fetch_names_spec (eng : RemoteEngine) (graph : Graph) (fetches : Fetches)
    (dframe : DataFrame) (names : List String)
    (hval : validateFetches graph (_check_fetches fetches) = Except.ok names)
    (hdup : ¬ (names.map stripPort).Nodup) :
    (reduce_rows eng graph fetches dframe =
       (Except.error (PyError.valueError (dupMsg names)), []) ∧
     map_rows eng graph fetches dframe =
       (Except.error (PyError.valueError (dupMsg names)), []) ∧
     map_blocks eng graph fetches dframe =
       (Except.error (PyError.valueError (dupMsg names)), []) ∧
     reduce_blocks eng graph fetches dframe =
       (Except.error (PyError.valueError (dupMsg names)), [])) ∧
    ∀ n ∈ names, n.data <:+: (dupMsg names).data := by
  have hcond : ((names.map stripPort).dedup).length ≠ (names.map stripPort).length :=
    fun hlen => hdup (dedup_length_eq.mp hlen)
  have hg : _get_graph graph (_check_fetches fetches) =
      Except.error (PyError.valueError (dupMsg names)) := by
    unfold _get_graph
    rw [hval]
    simp only []
    rw [if_pos hcond]
  exact ⟨get_graph_error_no_remote eng graph fetches dframe _ hg,
    fun n hn => mem_dupMsg_substr names n hn⟩

/-- Claim C1 witness: the fetches `"z:0"` and `"z:1"` collide on base name
`"z"`: the concrete call fails with the duplicate-names value error, makes no
remote call, and the message contains both colliding fetch names. -/
theorem dup_fetch_names_spec_witness :
    reduce_rows eng0 g0 dupFetches0 d0 =
      (Except.error (PyError.valueError (dupMsg ["z:0", "z:1"])), []) ∧
    ("z:0" : String).data <:+: (dupMsg ["z:0", "z:1"]).data ∧
    ("z:1" : String).data <:+: (dupMsg ["z:0", "z:1"]).data := by
  have h := dup_fetch_names_spec eng0 g0 dupFetches0 d0 ["z:0", "z:1"] rfl (by decide)
  exact ⟨h.1.1, h.2 "z:0" (by decide), h.2 "z:1" (by decide)⟩

/-- Claim C4 (amended): when the resolved fetch names are pairwise distinct
after stripping port suffixes, `_get_graph` raises no error and returns the
graph; the stripped names are computed positionally from the resolved names
but serve only the uniqueness check and are not returned. -/
theorem distinct_names_spec (graph : Graph) (fetches : List Fetch) (names : List String)
    (hval : validateFetches graph fetches = Except.ok names)
    (hnd : (names.map stripPort).Nodup) :
    _get_graph graph fetches = Except.ok graph := by
  unfold _get_graph
  rw [hval]
  simp only []
  rw [if_neg (fun hne => hne (dedup_length_eq.mpr hnd))]

/-- Claim C4 counterexample: on a concrete graph with one tensor fetch,
validation succeeds but what it returns is the graph itself, not the stripped
names: the resolved name list is `["z:0"]`, which differs from its stripped
form `["z"]`, and no stripped name is returned by `_get_graph`. -/
theorem distinct_names_counterexample :
    _get_graph g0 [Fetch.tensor tZ0] = Except.ok g0 ∧
    validateFetches g0 [Fetch.tensor tZ0] = Except.ok ["z:0"] ∧
    List.map stripPort ["z:0"] = ["z"] ∧ ("z:0" : String) ≠ "z" :=
  ⟨rfl, rfl, by decide, by decide⟩

/-- Claim C4 witness: a two-fetch graph whose stripped base names `z` and `w`
are distinct passes validation and the graph is returned. -/
theorem distinct_names_spec_witness :
    _get_graph g0 [Fetch.tensor tZ0, Fetch.byName "w"] = Except.ok g0 :=
  distinct_names_spec g0 [Fetch.tensor tZ0, Fetch.byName "w"] ["z:0", "w"] rfl (by decide)

theorem validateFetches_append_error (graph : Graph) (fs1 : List Fetch) (f : Fetch)
    (fs2 : List Fetch) (names : List String) (e : PyError)
    (h1 : validateFetches graph fs1 = Except.ok names)
    (h2 : _validate_fetch graph f = Except.error e) :
    validateFetches graph (fs1 ++ f :: fs2) = Except.error e := by
  induction fs1 generalizing names with
  | nil =>
      rw [List.nil_append]
      unfold validateFetches
      rw [h2]
  | cons x t ih =>
      rw [List.cons_append]
      unfold validateFetches at h1 ⊢
      cases hx : _validate_fetch graph x with
      | error e2 =>
          rw [hx] at h1
          exact Except.noConfusion h1
      | ok n =>
          rw [hx] at h1
          cases ht : validateFetches graph t with
          | error e2 =>
              rw [ht] at h1
              exact Except.noConfusion h1
          | ok ns => rw [ih ns ht]

/-- Claim C3: an unsupported-type fetch is rejected with a `TypeError` whose
message names the offending value and its type; a fetch that cannot be found
in the graph is rejected with a `ValueError`; either failure makes the whole
validation fail, and a validation failure makes each public call return the
error with an empty remote trace, i.e. before any remote call. -/
theorem fetch_error_spec :
    (∀ (graph : Graph) (f : Fetch) (m : String),
      graph.as_graph_element f = ElemResult.typeError m →
      _validate_fetch graph f = Except.error (PyError.typeError (typeErrMsg f m)) ∧
      (Fetch.reprOf f).data <:+: (typeErrMsg f m).data ∧
      (Fetch.typeNameOf f).data <:+: (typeErrMsg f m).data) ∧
    (∀ (graph : Graph) (f : Fetch) (m : String),
      (graph.as_graph_element f = ElemResult.valueError m ∨
       graph.as_graph_element f = ElemResult.keyError m) →
      _validate_fetch graph f = Except.error (PyError.valueError (valueErrMsg f m)) ∧
      (Fetch.reprOf f).data <:+: (valueErrMsg f m).data) ∧
    (∀ (graph : Graph) (fs1 : List Fetch) (f : Fetch) (fs2 : List Fetch)
        (names : List String) (e : PyError),
      validateFetches graph fs1 = Except.ok names →
      _validate_fetch graph f = Except.error e →
      validateFetches graph (fs1 ++ f :: fs2) = Except.error e ∧
      _get_graph graph (fs1 ++ f :: fs2) = Except.error e) ∧
    (∀ (eng : RemoteEngine) (graph : Graph) (fetches : Fetches) (dframe : DataFrame)
        (e : PyError),
      _get_graph graph (_check_fetches fetches) = Except.error e →
      reduce_rows eng graph fetches dframe = (Except.error e, []) ∧
      map_rows eng graph fetches dframe = (Except.error e, []) ∧
      map_blocks eng graph fetches dframe = (Except.error e, []) ∧
      reduce_blocks eng graph fetches dframe = (Except.error e, [])) := by
  refine ⟨?_, ?_, ?_, ?_⟩
  · intro graph f m h
    unfold _validate_fetch
    rw [h]
    refine ⟨rfl, ?_, ?_⟩
    · exact ⟨("Fetch argument " : String).data,
        (" has invalid type " ++ Fetch.typeNameOf f ++
          ", must be a string or Tensor. (" ++ m ++ ")").data,
        by simp [typeErrMsg, String.data_append]⟩
    · exact ⟨("Fetch argument " ++ Fetch.reprOf f ++ " has invalid type " : String).data,
        (", must be a string or Tensor. (" ++ m ++ ")").data,
        by simp [typeErrMsg, String.data_append]⟩
  · intro graph f m h
    have hmsg : _validate_fetch graph f =
        Except.error (PyError.valueError (valueErrMsg f m)) := by
      unfold _validate_fetch
      rcases h with h | h <;> rw [h]
    refine ⟨hmsg, ?_⟩
    exact ⟨("Fetch argument " : String).data,
      (" cannot be interpreted as a Tensor. (" ++ m ++ ")").data,
      by simp [valueErrMsg, String.data_append]⟩
  · intro graph fs1 f fs2 names e h1 h2
    have hv := validateFetches_append_error graph fs1 f fs2 names e h1 h2
    refine ⟨hv, ?_⟩
    unfold _get_graph
    rw [hv]
  · intro eng graph fetches dframe e h
    exact get_graph_error_no_remote eng graph fetches dframe e h

/-- Claim C3 witness: validating the integer fetch raises the type error
naming `23` and `int`; the unknown name `"nope"` raises the value error; the
concrete `reduce_rows` call on the bad fetch errors with an empty trace. -/
theorem fetch_error_spec_witness :
    _validate_fetch g0 fetchBad = Except.error (PyError.typeError
      (typeErrMsg fetchBad "Can not convert a int into a Tensor or Operation.")) ∧
    _validate_fetch g0 fetchMissing = Except.error (PyError.valueError
      (valueErrMsg fetchMissing ("The name " ++ quoteStr "nope" ++
        " refers to an element which does not exist in the graph."))) ∧
    reduce_rows eng0 g0 (Fetches.list [fetchBad]) d0 =
      (Except.error (PyError.typeError
        (typeErrMsg fetchBad "Can not convert a int into a Tensor or Operation.")), []) := by
  refine ⟨(fetch_error_spec.1 g0 fetchBad _ rfl).1,
    (fetch_error_spec.2.1 g0 fetchMissing _ (Or.inr rfl)).1, ?_⟩
  exact (fetch_error_spec.2.2.2 eng0 g0 (Fetches.list [fetchBad]) d0 _
    ((fetch_error_spec.2.2.1 g0 [] fetchBad [] [] _ rfl
      (fetch_error_spec.1 g0 fetchBad _ rfl).1).2)).1

theorem get_tensor_by_name_name (g : Graph) (s : String) (t : Tensor)
    (h : g.get_tensor_by_name s = some t) : t.name = s := by
  have h2 := List.find?_some h
  exact eq_of_beq h2

theorem append_colon_inj : Function.Injective (fun s : String => s ++ ":0") := by
  intro a b hab
  have h2 := congrArg String.data hab
  simp only [String.data_append] at h2
  exact String.ext (List.append_left_injective _ h2)

theorem phLoop_ok (graph : Graph) :
    ∀ (ns : List NodeDef) (l : List (String × List Int)),
      phLoop graph ns = Except.ok l →
      (∀ n ∈ ns, n.input = [] →
        (graph.get_tensor_by_name (n.name ++ ":0")).isSome = true) ∧
      l = (ns.filter (fun n => decide (n.input = []))).map (phEntry graph) := by
  intro ns
  induction ns with
  | nil =>
      intro l h
      refine ⟨?_, ?_⟩
      · intro n hn
        cases hn
      · unfold phLoop at h
        rw [← Except.ok.inj h]
        rfl
  | cons n rest ih =>
      intro l h
      unfold phLoop at h
      by_cases hin : n.input = []
      · rw [if_pos hin] at h
        cases ht : graph.get_tensor_by_name (n.name ++ ":0") with
        | none =>
            rw [ht] at h
            exact Except.noConfusion h
        | some t =>
            rw [ht] at h
            cases hrec : phLoop graph rest with
            | error e =>
                rw [hrec] at h
                exact Except.noConfusion h
            | ok tl =>
                rw [hrec] at h
                obtain ⟨ha, hb⟩ := ih tl hrec
                refine ⟨?_, ?_⟩
                · intro m hm hmi
                  rcases List.mem_cons.mp hm with rfl | hm
                  · rw [ht]
                    rfl
                  · exact ha m hm hmi
                · rw [← Except.ok.inj h, hb]
                  simp [List.filter_cons, hin, phEntry, ht]
      · rw [if_neg hin] at h
        obtain ⟨ha, hb⟩ := ih l h
        refine ⟨?_, ?_⟩
        · intro m hm hmi
          rcases List.mem_cons.mp hm with rfl | hm
          · exact absurd hmi hin
          · exact ha m hm hmi
        · rw [hb]
          simp [List.filter_cons, hin]

/-- Claim C6: in a graph with distinct node names, every node with an empty
input list appears in the placeholder list exactly once, keyed by its default
output tensor name `"<node>:0"`, with that tensor's shape extracted by the
same `_get_shape` used for fetches; every placeholder entry comes from such a
node, and nodes with non-empty input lists never appear. -/
theorem placeholder_spec (graph : Graph) (l : List (String × List Int))
    (hnd : (graph.as_graph_def.node.map NodeDef.name).Nodup)
    (h : phLoop graph graph.as_graph_def.node = Except.ok l) :
    (∀ n ∈ graph.as_graph_def.node, n.input = [] →
      ∃ t, graph.get_tensor_by_name (n.name ++ ":0") = some t ∧
        (l.map Prod.fst).count (n.name ++ ":0") = 1 ∧
        (n.name ++ ":0", _get_shape t) ∈ l) ∧
    (∀ p ∈ l, ∃ n, n ∈ graph.as_graph_def.node ∧ n.input = [] ∧
      p.1 = n.name ++ ":0") ∧
    (∀ n ∈ graph.as_graph_def.node, n.input ≠ [] →
      (n.name ++ ":0") ∉ l.map Prod.fst) := by
  obtain ⟨hsome, hl⟩ := phLoop_ok graph graph.as_graph_def.node l h
  have hkeys : l.map Prod.fst =
      (graph.as_graph_def.node.filter (fun n => decide (n.input = []))).map
        (fun n => n.name ++ ":0") := by
    rw [hl, List.map_map]
    apply List.map_congr_left
    intro n hn
    have hn1 : n ∈ graph.as_graph_def.node := (List.mem_filter.mp hn).1
    have hni : n.input = [] := of_decide_eq_true (List.mem_filter.mp hn).2
    obtain ⟨t, ht⟩ := Option.isSome_iff_exists.mp (hsome n hn1 hni)
    simp [Function.comp, phEntry, ht, get_tensor_by_name_name graph _ t ht]
  have hnodup :
      ((graph.as_graph_def.node.filter (fun n => decide (n.input = []))).map
        (fun n => n.name ++ ":0")).Nodup := by
    have h1 : (graph.as_graph_def.node.map (fun n => n.name ++ ":0")).Nodup := by
      have h2 : graph.as_graph_def.node.map (fun n => n.name ++ ":0") =
          (graph.as_graph_def.node.map NodeDef.name).map (fun s => s ++ ":0") := by
        rw [List.map_map]
        rfl
      rw [h2]
      exact hnd.map append_colon_inj
    exact h1.sublist ((List.filter_sublist _).map _)
  refine ⟨?_, ?_, ?_⟩
  · intro n hn hni
    have hnf : n ∈ graph.as_graph_def.node.filter (fun n => decide (n.input = [])) :=
      List.mem_filter.mpr ⟨hn, by simp [hni]⟩
    obtain ⟨t, ht⟩ := Option.isSome_iff_exists.mp (hsome n hn hni)
    refine ⟨t, ht, ?_, ?_⟩
    · rw [hkeys]
      exact List.count_eq_one_of_mem hnodup (List.mem_map_of_mem _ hnf)
    · rw [hl]
      have he : phEntry graph n = (n.name ++ ":0", _get_shape t) := by
        simp [phEntry, ht, get_tensor_by_name_name graph _ t ht]
      rw [← he]
      exact List.mem_map_of_mem _ hnf
  · intro p hp
    rw [hl] at hp
    obtain ⟨n, hn, hpn⟩ := List.mem_map.mp hp
    have hn1 : n ∈ graph.as_graph_def.node := (List.mem_filter.mp hn).1
    have hni : n.input = [] := of_decide_eq_true (List.mem_filter.mp hn).2
    obtain ⟨t, ht⟩ := Option.isSome_iff_exists.mp (hsome n hn1 hni)
    refine ⟨n, hn1, hni, ?_⟩
    rw [← hpn]
    simp [phEntry, ht, get_tensor_by_name_name graph _ t ht]
  · intro n hn hni hmem
    rw [hkeys] at hmem
    obtain ⟨m, hm, hmn⟩ := List.mem_map.mp hmem
    have hm1 : m ∈ graph.as_graph_def.node := (List.mem_filter.mp hm).1
    have hmi : m.input = [] := of_decide_eq_true (List.mem_filter.mp hm).2
    have hname : m.name = n.name := append_colon_inj hmn
    have hmn2 : m = n := List.inj_on_of_nodup_map hnd hm1 hn hname
    exact hni (hmn2 ▸ hmi)

/-- Claim C6 witness: in the concrete graph, the empty-input node `z`
contributes the entry `("z:0", [3, -1])` exactly once, and the dependent node
`w` contributes nothing. -/
theorem placeholder_spec_witness :
    ((("z:0" : String), ([3, -1] : List Int)) ∈
      [((("z:0" : String)), ([3, -1] : List Int))]) ∧
    List.count ("z:0") (List.map Prod.fst
      [((("z:0" : String)), ([3, -1] : List Int))]) = 1 := by
  obtain ⟨hfor, hback, hnon⟩ := placeholder_spec g0 [("z:0", [3, -1])] (by decide) rfl
  obtain ⟨t, ht, hc, hm⟩ := hfor { name := "z", input := [] } (by decide) rfl
  have htz : t = tZ0 := by
    have h2 : g0.get_tensor_by_name ("z" ++ ":0") = some tZ0 := by decide
    rw [ht] at h2
    exact Option.some.inj h2
  subst htz
  have hkey : ("z" ++ ":0" : String) = "z:0" := by decide
  constructor
  · have hm2 := hm
    rw [hkey] at hm2
    exact hm2
  · rw [hkey] at hc
    exact hc

/-- Claim C8: on success each graph-shipping operation makes exactly these
remote calls in order — api acquisition, the one corresponding builder method
on the source dataframe's handle, graph attachment, shape attachment, then
`buildRow` for the reductions and `buildDF` for the mappings — while
`analyze` and `print_schema` call the remote method (`analyze`, `explain`)
directly with the dataframe's handle and attach no graph. -/
theorem remote_dispatch_spec :
    (∀ (eng : RemoteEngine) (graph : Graph) (fetches : Fetches) (dframe : DataFrame)
        (res : UnpackResult) (tr : List RemoteEvent),
      reduce_rows eng graph fetches dframe = (Except.ok res, tr) →
      ∃ ns ss, tr =
        [RemoteEvent.javaApi, RemoteEvent.methodCall "reduce_rows" dframe.jdf,
         RemoteEvent.builderGraph graph.as_graph_def.serializedBytes,
         RemoteEvent.builderShape ns ss, RemoteEvent.buildRow]) ∧
    (∀ (eng : RemoteEngine) (graph : Graph) (fetches : Fetches) (dframe : DataFrame)
        (res : UnpackResult) (tr : List RemoteEvent),
      reduce_blocks eng graph fetches dframe = (Except.ok res, tr) →
      ∃ ns ss, tr =
        [RemoteEvent.javaApi, RemoteEvent.methodCall "reduce_blocks" dframe.jdf,
         RemoteEvent.builderGraph graph.as_graph_def.serializedBytes,
         RemoteEvent.builderShape ns ss, RemoteEvent.buildRow]) ∧
    (∀ (eng : RemoteEngine) (graph : Graph) (fetches : Fetches) (dframe : DataFrame)
        (df : DataFrame) (tr : List RemoteEvent),
      map_rows eng graph fetches dframe = (Except.ok df, tr) →
      ∃ ns ss, tr =
        [RemoteEvent.javaApi, RemoteEvent.methodCall "map_rows" dframe.jdf,
         RemoteEvent.builderGraph graph.as_graph_def.serializedBytes,
         RemoteEvent.builderShape ns ss, RemoteEvent.buildDF]) ∧
    (∀ (eng : RemoteEngine) (graph : Graph) (fetches : Fetches) (dframe : DataFrame)
        (df : DataFrame) (tr : List RemoteEvent),
      map_blocks eng graph fetches dframe = (Except.ok df, tr) →
      ∃ ns ss, tr =
        [RemoteEvent.javaApi, RemoteEvent.methodCall "map_blocks" dframe.jdf,
         RemoteEvent.builderGraph graph.as_graph_def.serializedBytes,
         RemoteEvent.builderShape ns ss, RemoteEvent.buildDF]) ∧
    (∀ (eng : RemoteEngine) (dframe : DataFrame),
      (analyze eng dframe).2 =
        [RemoteEvent.javaApi, RemoteEvent.methodCall "analyze" dframe.jdf]) ∧
    (∀ (eng : RemoteEngine) (dframe : DataFrame),
      (print_schema eng dframe).2 =
        [RemoteEvent.javaApi, RemoteEvent.methodCall "explain" dframe.jdf]) := by
  refine ⟨?_, ?_, ?_, ?_, fun _ _ => rfl, fun _ _ => rfl⟩
  · intro eng graph fetches dframe res tr h
    obtain ⟨b2, hb2, _, htr⟩ := reduce_rows_ok_shape eng graph fetches dframe res tr h
    obtain ⟨ns, ss, hb⟩ := add_shapes_ok _ _ _ _ hb2
    refine ⟨ns, ss, ?_⟩
    rw [htr, hb]
    simp [traceOf, _add_graph, BuilderCall.toEvent]
  · intro eng graph fetches dframe res tr h
    obtain ⟨b2, hb2, _, htr⟩ := reduce_blocks_ok_shape eng graph fetches dframe res tr h
    obtain ⟨ns, ss, hb⟩ := add_shapes_ok _ _ _ _ hb2
    refine ⟨ns, ss, ?_⟩
    rw [htr, hb]
    simp [traceOf, _add_graph, BuilderCall.toEvent]
  · intro eng graph fetches dframe df tr h
    obtain ⟨b2, hb2, _, htr⟩ := map_rows_ok_shape eng graph fetches dframe df tr h
    obtain ⟨ns, ss, hb⟩ := add_shapes_ok _ _ _ _ hb2
    refine ⟨ns, ss, ?_⟩
    rw [htr, hb]
    simp [traceOf, _add_graph, BuilderCall.toEvent]
  · intro eng graph fetches dframe df tr h
    obtain ⟨b2, hb2, _, htr⟩ := map_blocks_ok_shape eng graph fetches dframe df tr h
    obtain ⟨ns, ss, hb⟩ := add_shapes_ok _ _ _ _ hb2
    refine ⟨ns, ss, ?_⟩
    rw [htr, hb]
    simp [traceOf, _add_graph, BuilderCall.toEvent]

/-- Claim C8 witness: on the concrete successful `reduce_rows` call the trace
has exactly the five events, and the concrete `analyze` call produces exactly
the direct two-event trace. -/
theorem remote_dispatch_spec_witness :
    trRR0.length = 5 ∧
    (analyze eng0 d0).2 =
      [RemoteEvent.javaApi, RemoteEvent.methodCall "analyze" d0.jdf] := by
  obtain ⟨ns, ss, htr⟩ := remote_dispatch_spec.1 eng0 g0 fetches0 d0
    (UnpackResult.single 5) trRR0 rfl
  refine ⟨?_, remote_dispatch_spec.2.2.2.2.1 eng0 d0⟩
  rw [htr]
  rfl

/-- Claim C9 counterexample: starting from the uninitialized module state, two
successive `_java_api` calls return different bridge handles —
`newInstance()` constructs a new instance of the entry-point class on every
call, so no handle is cached or reused — even though the Spark context itself
is discovered once and kept. -/
theorem java_api_counterexample :
    (_java_api sc0 pyState0).2 ≠ (_java_api sc0 (_java_api sc0 pyState0).1).2 ∧
    (_java_api sc0 pyState0).1.sc = some sc0 ∧
    (_java_api sc0 (_java_api sc0 pyState0).1).1.sc = some sc0 := by
  refine ⟨by decide, by decide, by decide⟩

/-- Claim C9 (amended): context discovery is lazy and memoized at process
scope — the first call sets the globals `_sc`/`_sql` and every later call
leaves them unchanged — but the bridge handle to the remote entry-point class
is constructed anew by `newInstance()` on every call rather than cached. -/
theorem java_api_spec (active : SparkContext) (st : PyState) :
    (st.sc = none →
      (_java_api active st).1.sc = some active ∧
      (_java_api active st).1.sql = some { sc := active }) ∧
    (∀ c, st.sc = some c →
      (_java_api active st).1.sc = some c ∧
      (_java_api active st).1.sql = st.sql) ∧
    (_java_api active st).2 = { instanceId := st.newInstanceCount } ∧
    (_java_api active st).1.newInstanceCount = st.newInstanceCount + 1 := by
  by_cases hsc : st.sc = none
  · refine ⟨fun _ => ?_, fun c hc => ?_, ?_, ?_⟩
    · constructor <;> simp [_java_api, hsc]
    · rw [hsc] at hc
      exact Option.noConfusion hc
    · simp [_java_api, hsc]
    · simp [_java_api, hsc]
  · refine ⟨fun h => absurd h hsc, fun c hc => ?_, ?_, ?_⟩
    · constructor <;> simp [_java_api, hsc, hc]
    · simp [_java_api, hsc]
    · simp [_java_api, hsc]

/-- Claim C9 witness: from the uninitialized state the first call discovers
and caches the context; the second call keeps the cached context and
constructs the handle with the next instance id. -/
theorem java_api_spec_witness :
    (_java_api sc0 pyState0).1.sc = some sc0 ∧
    (_java_api sc0 (_java_api sc0 pyState0).1).1.sc = some sc0 ∧
    (_java_api sc0 (_java_api sc0 pyState0).1).2 = { instanceId := 1 } := by
  refine ⟨((java_api_spec sc0 pyState0).1 rfl).1, ?_, ?_⟩
  · exact ((java_api_spec sc0 (_java_api sc0 pyState0).1).2.1 sc0 rfl).1
  · rw [(java_api_spec sc0 (_java_api sc0 pyState0).1).2.2.1]
    rfl

end TensorFrames
